import Mathlib

/-!
Verification development for the linear-mcp repository (a Model Context Protocol
server adapting the Linear project-management API).

The repository contains several generations of the same server:
  * `src/index.ts`            — the current monolithic server (~3900 lines);
  * `src/unnamed/part_002` (2nd chunk) — its `schemas.ts` (Zod schemas and
    `validateRequest`/`formatZodError`);
  * `src/unnamed/part_003` (2nd chunk) — the modular v38 server entry point
    (READ_ONLY_MODE, tool registry, dispatch switch);
  * `src/utils.ts`            — three concatenated modular files: the modular
    `validateRequest`, the `ToolHandlers` class, and `READ_TOOLS`/`WRITE_TOOLS`;
  * `src/unnamed/part_003` (1st chunk) — the older v37 monolithic server.

Everything below is a shallow embedding of those sources: JSON values are an
inductive type, Zod object schemas are data, handlers are pure functions that
take the upstream responses as arguments and return the list of upstream calls
they would have made together with the tool response.
-/

/-- A JSON value.  Numbers are rationals (JavaScript numbers; the claims only
exercise exact decimal values such as `0`, `4`, `2.5`). -/
inductive Json where
  | null : Json
  | bool : Bool → Json
  | num : ℚ → Json
  | str : String → Json
  | arr : List Json → Json
  | obj : List (String × Json) → Json

/-- The type name Zod reports for a received JSON value
(`"Expected string, received number"`). -/
def jsonTypeName : Json → String
  | .null => "null"
  | .bool _ => "boolean"
  | .num _ => "number"
  | .str _ => "string"
  | .arr _ => "array"
  | .obj _ => "object"

/- ### Plain string helpers (executable substring / startsWith tests) -/

/-- Does `p` occur as the initial segment of `l`? -/
def listStartsWith : List Char → List Char → Bool
  | [], _ => true
  | _ :: _, [] => false
  | a :: as, b :: bs => a == b && listStartsWith as bs

/-- Does `p` occur as a contiguous segment of `l`? -/
def listHasSegment (p : List Char) : List Char → Bool
  | [] => listStartsWith p []
  | c :: cs => listStartsWith p (c :: cs) || listHasSegment p cs

/-- `strStarts s p` : does string `s` start with `p`? -/
def strStarts (s p : String) : Bool := listStartsWith p.data s.data

/-- `strContains s p` : does string `s` contain `p` as a substring? -/
def strContains (s p : String) : Bool := listHasSegment p.data s.data

/- ### Zod object-schema model
(`src/unnamed/part_002` lines 200-512, `src/unnamed/part_000`, and the modular
`validateRequest` in `src/utils.ts` lines 7-19). -/

/-- One Zod validation issue: a field path and a human-readable message. -/
structure ZIssue where
  path : List String
  message : String
deriving DecidableEq, Repr

/-- Numeric constraints supported by the schemas in this repository
(`z.number().min(a).max(b)`; none of the schemas use `.int()`). -/
structure NumC where
  lo : Option ℚ := none
  hi : Option ℚ := none
deriving Repr

/-- Field types used by the schemas in this repository. -/
inductive FieldType where
  | str : FieldType
  | num : NumC → FieldType
  | boolean : FieldType
  | strArray : FieldType
  | enumOf : List String → FieldType

/-- The display Zod uses for a numeric bound in its range messages
(all bounds in this repository are integers, rendered as such). -/
def ratDisplay (q : ℚ) : String :=
  if q.den = 1 then toString q.num else toString q.num ++ "/" ++ toString q.den

/-- Issues raised by the `.min` / `.max` checks of `z.number()`. -/
def numIssues (c : NumC) (q : ℚ) : List String :=
  (match c.lo with
   | some m =>
       if q < m then ["Number must be greater than or equal to " ++ ratDisplay m] else []
   | none => []) ++
  (match c.hi with
   | some m =>
       if m < q then ["Number must be less than or equal to " ++ ratDisplay m] else []
   | none => [])

/-- Messages raised for a present value checked against a field type.
Paths are relative to the field (array element issues carry the index). -/
def typeIssues : FieldType → Json → List (List String × String)
  | .str, .str _ => []
  | .str, v => [([], "Expected string, received " ++ jsonTypeName v)]
  | .num c, .num q => (numIssues c q).map (fun m => ([], m))
  | .num _, v => [([], "Expected number, received " ++ jsonTypeName v)]
  | .boolean, .bool _ => []
  | .boolean, v => [([], "Expected boolean, received " ++ jsonTypeName v)]
  | .strArray, .arr elems =>
      (elems.enum.filterMap fun (i, e) =>
        match e with
        | .str _ => none
        | v => some ([toString i], "Expected string, received " ++ jsonTypeName v))
  | .strArray, v => [([], "Expected array, received " ++ jsonTypeName v)]
  | .enumOf opts, .str s =>
      if opts.contains s then []
      else [([], "Invalid enum value. Expected " ++
        String.intercalate " | " (opts.map fun o => "'" ++ o ++ "'") ++
        ", received '" ++ s ++ "'")]
  | .enumOf _, v => [([], "Expected string, received " ++ jsonTypeName v)]

/-- One declared field of a `z.object` schema. -/
structure FieldSpec where
  name : String
  type : FieldType
  optional : Bool

/-- A `z.object` schema: a list of declared fields.  (Zod's default object
behaviour: unknown keys are stripped, not reported.) -/
structure ZodObject where
  fields : List FieldSpec

/-- The issues a single declared field contributes when parsing object
entries `kvs`: `Required` when a required field is absent, otherwise the
type/range issues of the present value, with the field name prefixed to the
path. -/
def fieldIssues (f : FieldSpec) (kvs : List (String × Json)) : List ZIssue :=
  match kvs.lookup f.name with
  | none => if f.optional then [] else [⟨[f.name], "Required"⟩]
  | some v => (typeIssues f.type v).map fun (p, m) => ⟨f.name :: p, m⟩

/-- All issues Zod collects for input `j` against schema `s` (`safeParse`
/ `parse` collect every field's issues; they do not stop at the first). -/
def zodIssues (s : ZodObject) (j : Json) : List ZIssue :=
  match j with
  | .obj kvs => (s.fields.map fun f => fieldIssues f kvs).flatten
  | other => [⟨[], "Expected object, received " ++ jsonTypeName other⟩]

/-- The successful parse result: the declared fields that are present, in
schema order (Zod strips unknown keys). -/
def zodStripJson (s : ZodObject) (j : Json) : Json :=
  match j with
  | .obj kvs =>
      .obj (s.fields.filterMap fun f => (kvs.lookup f.name).map fun v => (f.name, v))
  | other => other

/-- `formatZodError` of the monolithic `schemas.ts`
(`src/unnamed/part_002` lines 241-245): each issue is rendered as
`<path joined by "."> ++ ": " ++ <message>`, all joined by `", "`. -/
def formatZodError (issues : List ZIssue) : String :=
  String.intercalate ", "
    (issues.map fun i => String.intercalate "." i.path ++ ": " ++ i.message)

/-- `validateRequest` of the monolithic `schemas.ts`
(`src/unnamed/part_002` lines 211-236): on failure the single error message is
`"Validation error: " ++ formatZodError issues`. -/
def schemasValidateRequest (s : ZodObject) (j : Json) : Except String Json :=
  if (zodIssues s j).isEmpty then .ok (zodStripJson s j)
  else .error ("Validation error: " ++ formatZodError (zodIssues s j))

/-- `validateRequest` of the modular `src/utils.ts` (lines 7-19): on failure
the single error message is `"Invalid arguments: "` followed by the issues'
MESSAGES joined by `", "` — the field paths are not included. -/
def utilsValidateRequest (s : ZodObject) (j : Json) : Except String Json :=
  if (zodIssues s j).isEmpty then .ok (zodStripJson s j)
  else .error ("Invalid arguments: " ++
    String.intercalate ", " ((zodIssues s j).map ZIssue.message))

/- ### The concrete schemas carrying a `priority` field
(`src/unnamed/part_002` lines 248-308; the modular copies in
`src/unnamed/part_000` lines 4-24 and 79-87 declare `priority` identically:
`z.number().min(0).max(4).optional()`). -/

/-- Shorthand for an optional `z.number().min(0).max(4)` priority field. -/
def priorityField : FieldSpec := ⟨"priority", .num ⟨some 0, some 4⟩, true⟩

/-- `createIssueSchema` (`src/unnamed/part_002` lines 248-255; identical in
`src/unnamed/part_000` lines 4-11). -/
def createIssueSchemaZ : ZodObject :=
  ⟨[⟨"title", .str, false⟩,
    ⟨"description", .str, true⟩,
    ⟨"teamId", .str, false⟩,
    ⟨"assigneeId", .str, true⟩,
    priorityField,
    ⟨"labels", .strArray, true⟩]⟩

/-- `updateIssueSchema` (`src/unnamed/part_002` lines 300-308). -/
def updateIssueSchemaZ : ZodObject :=
  ⟨[⟨"issueId", .str, false⟩,
    ⟨"title", .str, true⟩,
    ⟨"description", .str, true⟩,
    ⟨"status", .str, true⟩,
    ⟨"assigneeId", .str, true⟩,
    priorityField,
    ⟨"labels", .strArray, true⟩]⟩

/-- `listIssuesSchema` (`src/unnamed/part_002` lines 257-298). -/
def listIssuesSchemaZ : ZodObject :=
  ⟨[⟨"teamId", .str, true⟩,
    ⟨"assigneeId", .str, true⟩,
    ⟨"status", .str, true⟩,
    ⟨"first", .num ⟨none, none⟩, true⟩,
    ⟨"projectId", .str, true⟩,
    ⟨"creatorId", .str, true⟩,
    priorityField,
    ⟨"dueDate", .str, true⟩,
    ⟨"dueDateGte", .str, true⟩,
    ⟨"dueDateLte", .str, true⟩,
    ⟨"createdAtGte", .str, true⟩,
    ⟨"createdAtLte", .str, true⟩,
    ⟨"updatedAtGte", .str, true⟩,
    ⟨"updatedAtLte", .str, true⟩,
    ⟨"completedAtGte", .str, true⟩,
    ⟨"completedAtLte", .str, true⟩,
    ⟨"canceledAtGte", .str, true⟩,
    ⟨"canceledAtLte", .str, true⟩,
    ⟨"startedAtGte", .str, true⟩,
    ⟨"startedAtLte", .str, true⟩,
    ⟨"archivedAtGte", .str, true⟩,
    ⟨"archivedAtLte", .str, true⟩,
    ⟨"title", .str, true⟩,
    ⟨"titleContains", .str, true⟩,
    ⟨"description", .str, true⟩,
    ⟨"descriptionContains", .str, true⟩,
    ⟨"number", .num ⟨none, none⟩, true⟩,
    ⟨"labelIds", .strArray, true⟩,
    ⟨"cycleId", .str, true⟩,
    ⟨"parentId", .str, true⟩,
    ⟨"estimate", .num ⟨none, none⟩, true⟩,
    ⟨"estimateGte", .num ⟨none, none⟩, true⟩,
    ⟨"estimateLte", .num ⟨none, none⟩, true⟩,
    ⟨"isBlocked", .boolean, true⟩,
    ⟨"isBlocking", .boolean, true⟩,
    ⟨"isDuplicate", .boolean, true⟩,
    ⟨"hasRelations", .boolean, true⟩,
    ⟨"subscriberIds", .strArray, true⟩,
    ⟨"includeArchived", .boolean, true⟩,
    ⟨"orderBy", .enumOf ["createdAt", "updatedAt", "priority"], true⟩]⟩

/- ### The modular v38 server's registry and dispatch
(`src/unnamed/part_003`, 2nd chunk, lines 1061-1223, together with
`READ_TOOLS` / `WRITE_TOOLS` from the tool definitions in `src/utils.ts`
lines 1150-1743). -/

/-- The names of `READ_TOOLS` (always listed), in source order. -/
def readToolNames : List String :=
  ["list_issues", "list_teams", "get_team", "list_projects", "get_project",
   "search_issues", "get_issue", "list_roadmaps", "get_roadmap",
   "get_initiative", "get_comment", "list_labels", "get_label", "list_cycles",
   "get_cycle", "list_documents", "get_document", "list_users", "get_user",
   "me"]

/-- The names of `WRITE_TOOLS` (the mutation tools), in source order. -/
def writeToolNames : List String :=
  ["create_issue", "update_issue", "create_comment", "update_comment",
   "delete_comment", "create_label", "update_label", "create_cycle",
   "update_cycle", "create_document", "update_document"]

/-- The `availableTools` capability map built at startup
(`part_003` lines 1086-1092): read tools always, write tools only when
`READ_ONLY_MODE` is false. -/
def availableToolNames (readOnlyMode : Bool) : List String :=
  readToolNames ++ (if !readOnlyMode then writeToolNames else [])

/-- The `ListToolsRequestSchema` handler (`part_003` lines 1129-1131):
read tools only in read-only mode, otherwise read plus write tools. -/
def listedTools (readOnlyMode : Bool) : List String :=
  if readOnlyMode then readToolNames else readToolNames ++ writeToolNames

/-- Result of the dispatch switch: either a named `ToolHandlers` method is
invoked, or the `default` branch throws `Unknown tool: <name>`. -/
inductive DispatchResult where
  | handler : String → DispatchResult
  | unknownTool : String → DispatchResult
deriving DecidableEq, Repr

/-- The `CallToolRequestSchema` dispatch switch of the v38 server
(`part_003` lines 1134-1223).  Note that it does not consult
`READ_ONLY_MODE`: the same switch runs in both deployment modes. -/
def callToolDispatch (name : String) : DispatchResult :=
  match name with
  | "create_issue" => .handler "handleCreateIssue"
  | "list_issues" => .handler "handleListIssues"
  | "get_issue" => .handler "handleGetIssue"
  | "search_issues" => .handler "handleSearchIssues"
  | "update_issue" => .handler "handleUpdateIssue"
  | "list_teams" => .handler "handleListTeams"
  | "get_team" => .handler "handleGetTeam"
  | "list_projects" => .handler "handleListProjects"
  | "get_project" => .handler "handleGetProject"
  | "list_roadmaps" => .handler "handleListRoadmaps"
  | "get_roadmap" => .handler "handleGetRoadmap"
  | "get_initiative" => .handler "handleGetInitiative"
  | "create_comment" => .handler "handleCreateComment"
  | "get_comment" => .handler "handleGetComment"
  | "update_comment" => .handler "handleUpdateComment"
  | "delete_comment" => .handler "handleDeleteComment"
  | "list_labels" => .handler "handleListLabels"
  | "get_label" => .handler "handleGetLabel"
  | "create_label" => .handler "handleCreateLabel"
  | "update_label" => .handler "handleUpdateLabel"
  | "list_cycles" => .handler "handleListCycles"
  | "get_cycle" => .handler "handleGetCycle"
  | "create_cycle" => .handler "handleCreateCycle"
  | "update_cycle" => .handler "handleUpdateCycle"
  | "list_documents" => .handler "handleListDocuments"
  | "get_document" => .handler "handleGetDocument"
  | "create_document" => .handler "handleCreateDocument"
  | "update_document" => .handler "handleUpdateDocument"
  | "list_users" => .handler "handleListUsers"
  | "get_user" => .handler "handleGetUser"
  | "me" => .handler "handleMe"
  | other => .unknownTool other

/-- Is the dispatch result the `Unknown tool` rejection? -/
def isUnknownTool : DispatchResult → Bool
  | .unknownTool _ => true
  | .handler _ => false

/- ### Page-size (`first`) handling of every list-returning tool -/

/-- The modular handlers' `args?.first || 50` (JavaScript `||`: an explicit
`0` is falsy, so it is replaced by the default 50 exactly like an omitted
`first`). -/
def jsTruthyOr50 (f : Option ℚ) : ℚ :=
  match f with
  | none => 50
  | some x => if x = 0 then 50 else x

/-- `handleListIssues` page size (`src/utils.ts` line 125). -/
def handleListIssuesFirst (f : Option ℚ) : Option ℚ := some (jsTruthyOr50 f)

/-- `handleListUsers` page size (`src/utils.ts` line 413). -/
def handleListUsersFirst (f : Option ℚ) : Option ℚ := some (jsTruthyOr50 f)

/-- `handleListTeams` page size (`src/utils.ts` line 437). -/
def handleListTeamsFirst (f : Option ℚ) : Option ℚ := some (jsTruthyOr50 f)

/-- `handleListProjects` page size (`src/utils.ts` line 500). -/
def handleListProjectsFirst (f : Option ℚ) : Option ℚ := some (jsTruthyOr50 f)

/-- `handleListRoadmaps` page size (`src/utils.ts` line 697). -/
def handleListRoadmapsFirst (f : Option ℚ) : Option ℚ := some (jsTruthyOr50 f)

/-- `handleListLabels` page size (`src/utils.ts` line 787). -/
def handleListLabelsFirst (f : Option ℚ) : Option ℚ := some (jsTruthyOr50 f)

/-- `handleListCycles` page size (`src/utils.ts` line 909). -/
def handleListCyclesFirst (f : Option ℚ) : Option ℚ := some (jsTruthyOr50 f)

/-- `handleListDocuments` page size (`src/utils.ts` line 1036). -/
def handleListDocumentsFirst (f : Option ℚ) : Option ℚ := some (jsTruthyOr50 f)

/-- `handleSearchIssues` page size (`src/utils.ts` line 631). -/
def handleSearchIssuesFirst (f : Option ℚ) : Option ℚ := some (jsTruthyOr50 f)

/-- Monolithic `list_issues` page size: `first: args?.first ?? 50`
(`src/index.ts` line 1240).  Nullish coalescing preserves an explicit 0. -/
def indexListIssuesFirst (f : Option ℚ) : Option ℚ := some (f.getD 50)

/-- Monolithic `list_teams` upstream fetch: `linearClient.teams()` is called
with NO arguments (`src/index.ts` line 1469) — no `first` bound at all. -/
def indexListTeamsFirst : Option ℚ := none

/-- The v37 server's `list_teams` also calls `linearClient.teams()` with no
arguments (`src/unnamed/part_003`, 1st chunk, line 420). -/
def v37ListTeamsFirst : Option ℚ := none

/-- Monolithic `list_projects` page size: `first: args?.first ?? 50`
(`src/index.ts` line 1551). -/
def indexListProjectsFirst (f : Option ℚ) : Option ℚ := some (f.getD 50)

/-- Monolithic `search_issues` page size: `first: args.first ?? 50`
(`src/index.ts` line 1655). -/
def indexSearchIssuesFirst (f : Option ℚ) : Option ℚ := some (f.getD 50)

/-- Monolithic `list_roadmaps` page size:
`first: args?.first ?? (args?.last ? undefined : 50)` (`src/index.ts`
line 1972) — when `first` is omitted and a (truthy) `last` is given, `first`
stays undefined and `last` bounds the page instead. -/
def indexListRoadmapsFirst (f l : Option ℚ) : Option ℚ :=
  match f with
  | some x => some x
  | none => if (l.getD 0) = 0 then some 50 else none

/-- Monolithic `list_labels` page size: `const ⟨teamId, first = 50⟩ = args`
(`src/index.ts` line 2349); destructuring defaults only replace undefined. -/
def indexListLabelsFirst (f : Option ℚ) : Option ℚ := some (f.getD 50)

/-- Monolithic `list_cycles` page size (`src/index.ts` line 2466). -/
def indexListCyclesFirst (f : Option ℚ) : Option ℚ := some (f.getD 50)

/-- Monolithic `list_documents` page size (`src/index.ts` line 2596). -/
def indexListDocumentsFirst (f : Option ℚ) : Option ℚ := some (f.getD 50)

/-- Monolithic `list_users` page size (`src/index.ts` line 2817). -/
def indexListUsersFirst (f : Option ℚ) : Option ℚ := some (f.getD 50)

/- ### Entity shapes used by the formatters -/

/-- A resolved workflow state (`issue.state`). -/
structure StateRef where
  id : String
  name : String
  type : String
  color : String

/-- A resolved user (`issue.assignee`, `issue.creator`, `comment.user`). -/
structure UserRef where
  id : String
  name : String
  email : String

/-- A resolved project reference. -/
structure ProjectRef where
  id : String
  name : String
  state : String

/-- A resolved team reference. -/
structure TeamRef where
  id : String
  name : String
  key : String

/-- A resolved cycle reference. -/
structure CycleRef where
  id : String
  name : String
  number : ℚ

/-- A resolved issue reference (`issue.parent`, `comment.issue`). -/
structure IssueRef where
  id : String
  title : String
  identifier : String

/-- A label node. -/
structure LabelRef where
  id : String
  name : String
  color : String

/-- A comment node as projected by `get_issue` (`{id, body, createdAt}`). -/
structure CommentRef where
  id : Json
  body : Json
  createdAt : Json

/-- An attachment node as projected by `get_issue` (`{id, title, url}`). -/
structure AttachmentRef where
  id : Json
  title : Json
  url : Json

/-- JavaScript truthiness on JSON values (`null`, `false`, `0` and `""` are
falsy; arrays and objects are truthy). -/
def jsTruthy : Json → Bool
  | .null => false
  | .bool b => b
  | .num q => !(q = 0)
  | .str s => !(s = "")
  | .arr _ => true
  | .obj _ => true

/-- JavaScript `a || b` on JSON values. -/
def jsOr (a b : Json) : Json := if jsTruthy a then a else b

def stateJson (s : StateRef) : Json :=
  .obj [("id", .str s.id), ("name", .str s.name), ("type", .str s.type),
        ("color", .str s.color)]

def userJson (u : UserRef) : Json :=
  .obj [("id", .str u.id), ("name", .str u.name), ("email", .str u.email)]

def projectJson (p : ProjectRef) : Json :=
  .obj [("id", .str p.id), ("name", .str p.name), ("state", .str p.state)]

def teamJson (t : TeamRef) : Json :=
  .obj [("id", .str t.id), ("name", .str t.name), ("key", .str t.key)]

def cycleJson (c : CycleRef) : Json :=
  .obj [("id", .str c.id), ("name", .str c.name), ("number", .num c.number)]

def issueRefJson (p : IssueRef) : Json :=
  .obj [("id", .str p.id), ("title", .str p.title),
        ("identifier", .str p.identifier)]

def labelJson (l : LabelRef) : Json :=
  .obj [("id", .str l.id), ("name", .str l.name), ("color", .str l.color)]

/-- `x ? ⟨projection⟩ : null` — the conditional used for every optional
relation of the monolithic `list_issues` and `get_issue` formatters. -/
def optRel (f : α → Json) : Option α → Json
  | some x => f x
  | none => .null

/-- The raw issue fields the monolithic `list_issues` formatter copies
verbatim from the fetched node (`src/index.ts` lines 1284-1392).  Each is an
opaque JSON value passed through unchanged. -/
structure RawIssue where
  id : Json
  identifier : Json
  number : Json
  title : Json
  description : Json
  priority : Json
  priorityLabel : Json
  estimate : Json
  sortOrder : Json
  boardOrder : Json
  subIssueSortOrder : Json
  url : Json
  branchName : Json
  dueDate : Json
  createdAt : Json
  updatedAt : Json
  startedAt : Json
  completedAt : Json
  canceledAt : Json
  archivedAt : Json
  autoArchivedAt : Json
  autoClosedAt : Json
  triagedAt : Json
  addedToCycleAt : Json
  addedToProjectAt : Json
  slaStartedAt : Json
  slaBreachesAt : Json
  slaMediumRiskAt : Json
  slaHighRiskAt : Json
  slaType : Json
  customerTicketCount : Json
  previousIdentifiers : Json
  snoozedUntilAt : Json
  trashed : Json
  reactionData : Json

/-- One fetched `list_issues` node bundled with its relations, which the
handler resolves in parallel before formatting (`src/index.ts` 1252-1273). -/
structure IssueBundle where
  raw : RawIssue
  state : Option StateRef
  assignee : Option UserRef
  creator : Option UserRef
  project : Option ProjectRef
  team : Option TeamRef
  cycle : Option CycleRef
  parent : Option IssueRef
  labels : List LabelRef

/-- The monolithic `list_issues` per-node formatter
(`src/index.ts` lines 1284-1392): raw fields verbatim, every optional
relation mapped to its small projection or `null`. -/
def formatIssueListItem (b : IssueBundle) : List (String × Json) :=
  [("id", b.raw.id),
   ("identifier", b.raw.identifier),
   ("number", b.raw.number),
   ("title", b.raw.title),
   ("description", b.raw.description),
   ("status", optRel stateJson b.state),
   ("assignee", optRel userJson b.assignee),
   ("creator", optRel userJson b.creator),
   ("project", optRel projectJson b.project),
   ("team", optRel teamJson b.team),
   ("cycle", optRel cycleJson b.cycle),
   ("parent", optRel issueRefJson b.parent),
   ("priority", b.raw.priority),
   ("priorityLabel", b.raw.priorityLabel),
   ("estimate", b.raw.estimate),
   ("sortOrder", b.raw.sortOrder),
   ("boardOrder", b.raw.boardOrder),
   ("subIssueSortOrder", b.raw.subIssueSortOrder),
   ("url", b.raw.url),
   ("branchName", b.raw.branchName),
   ("dueDate", b.raw.dueDate),
   ("createdAt", b.raw.createdAt),
   ("updatedAt", b.raw.updatedAt),
   ("startedAt", b.raw.startedAt),
   ("completedAt", b.raw.completedAt),
   ("canceledAt", b.raw.canceledAt),
   ("archivedAt", b.raw.archivedAt),
   ("autoArchivedAt", b.raw.autoArchivedAt),
   ("autoClosedAt", b.raw.autoClosedAt),
   ("triagedAt", b.raw.triagedAt),
   ("addedToCycleAt", b.raw.addedToCycleAt),
   ("addedToProjectAt", b.raw.addedToProjectAt),
   ("slaStartedAt", b.raw.slaStartedAt),
   ("slaBreachesAt", b.raw.slaBreachesAt),
   ("slaMediumRiskAt", b.raw.slaMediumRiskAt),
   ("slaHighRiskAt", b.raw.slaHighRiskAt),
   ("slaType", b.raw.slaType),
   ("labels", .arr (b.labels.map labelJson)),
   ("customerTicketCount", b.raw.customerTicketCount),
   ("previousIdentifiers", b.raw.previousIdentifiers),
   ("snoozedUntilAt", b.raw.snoozedUntilAt),
   ("trashed", b.raw.trashed),
   ("reactionData", b.raw.reactionData)]

/-- The raw issue fields used by the monolithic `get_issue` formatter
(`src/index.ts` lines 1839-1927), each an opaque JSON value. -/
structure RawIssueDetails where
  id : Json
  identifier : Json
  title : Json
  description : Json
  priority : Json
  priorityLabel : Json
  url : Json
  createdAt : Json
  updatedAt : Json
  startedAt : Json
  completedAt : Json
  canceledAt : Json
  dueDate : Json
  estimate : Json
  customerTicketCount : Json
  previousIdentifiers : Json
  branchName : Json
  archivedAt : Json
  autoArchivedAt : Json
  autoClosedAt : Json
  trashed : Json

/-- One fetched `get_issue` entity with the thirteen relations the handler
resolves in parallel (`src/index.ts` lines 1766-1795).  `subscribers`,
`children` and `relations` are fetched but never used by the formatter. -/
structure IssueDetailsBundle where
  raw : RawIssueDetails
  state : Option StateRef
  assignee : Option UserRef
  creator : Option UserRef
  project : Option ProjectRef
  team : Option TeamRef
  cycle : Option CycleRef
  parent : Option IssueRef
  labels : List LabelRef
  comments : List CommentRef
  attachments : List AttachmentRef

/-- The monolithic `get_issue` projection `issueDetails`
(`src/index.ts` lines 1839-1927).  Note line 1846:
`status: state ? await state.name : "Unknown"` — the absent state falls back
to the SENTINEL STRING `"Unknown"`, unlike the object-valued relations which
fall back to `null`; and line 1889: the cycle also requires a truthy
`cycle.name`. -/
def issueDetails (b : IssueDetailsBundle) : List (String × Json) :=
  [("id", b.raw.id),
   ("identifier", b.raw.identifier),
   ("title", b.raw.title),
   ("description", b.raw.description),
   ("priority", b.raw.priority),
   ("priorityLabel", b.raw.priorityLabel),
   ("status", match b.state with
     | some s => .str s.name
     | none => .str "Unknown"),
   ("url", b.raw.url),
   ("createdAt", b.raw.createdAt),
   ("updatedAt", b.raw.updatedAt),
   ("startedAt", jsOr b.raw.startedAt .null),
   ("completedAt", jsOr b.raw.completedAt .null),
   ("canceledAt", jsOr b.raw.canceledAt .null),
   ("dueDate", b.raw.dueDate),
   ("assignee", optRel userJson b.assignee),
   ("creator", optRel userJson b.creator),
   ("team", optRel teamJson b.team),
   ("project", optRel projectJson b.project),
   ("parent", optRel issueRefJson b.parent),
   ("cycle", match b.cycle with
     | some c => if c.name = "" then .null else cycleJson c
     | none => .null),
   ("labels", .arr (b.labels.map labelJson)),
   ("comments", .arr (b.comments.map fun c =>
      .obj [("id", c.id), ("body", c.body), ("createdAt", c.createdAt)])),
   ("attachments", .arr (b.attachments.map fun a =>
      .obj [("id", a.id), ("title", a.title), ("url", a.url)])),
   ("embeddedImages", .arr []),
   ("estimate", jsOr b.raw.estimate .null),
   ("customerTicketCount", jsOr b.raw.customerTicketCount (.num 0)),
   ("previousIdentifiers", jsOr b.raw.previousIdentifiers (.arr [])),
   ("branchName", jsOr b.raw.branchName (.str "")),
   ("archivedAt", jsOr b.raw.archivedAt .null),
   ("autoArchivedAt", jsOr b.raw.autoArchivedAt .null),
   ("autoClosedAt", jsOr b.raw.autoClosedAt .null),
   ("trashed", jsOr b.raw.trashed (.bool false))]

/-- The v37 server's `list_issues` per-node formatter
(`src/unnamed/part_003`, 1st chunk, lines 364-377): absent state and assignee
become the SENTINEL STRINGS `"Unknown"` and `"Unassigned"`. -/
def formatIssueV37 (id title : Json) (state : Option StateRef)
    (assignee : Option UserRef) (priority url : Json) : List (String × Json) :=
  [("id", id),
   ("title", title),
   ("status", match state with
     | some s => .str s.name
     | none => .str "Unknown"),
   ("assignee", match assignee with
     | some u => .str u.name
     | none => .str "Unassigned"),
   ("priority", priority),
   ("url", url)]

/-- The modular `handleGetComment` projection (`src/utils.ts` lines 235-254):
absent `user` and `issue` relations become explicit `null`. -/
def formatCommentGet (id body createdAt updatedAt : Json)
    (user : Option UserRef) (issue : Option IssueRef) : List (String × Json) :=
  [("id", id),
   ("body", body),
   ("createdAt", createdAt),
   ("updatedAt", updatedAt),
   ("user", optRel userJson user),
   ("issue", optRel issueRefJson issue)]

/-- A resolved user with profile fields (the `search_issues` assignee
projection: id, name, email, displayName, avatarUrl). -/
structure UserFullRef where
  id : String
  name : String
  email : String
  displayName : String
  avatarUrl : String

/-- A two-field `{id, name}` reference (the `search_issues` project
projection and the `list_roadmaps` creator projection). -/
structure IdNameRef where
  id : String
  name : String

def userFullJson (u : UserFullRef) : Json :=
  .obj [("id", .str u.id), ("name", .str u.name), ("email", .str u.email),
        ("displayName", .str u.displayName), ("avatarUrl", .str u.avatarUrl)]

def idNameJson (r : IdNameRef) : Json :=
  .obj [("id", .str r.id), ("name", .str r.name)]

/-- The state projection of `search_issues` (`src/index.ts` lines 1682-1689:
id, name, color, type — member order differs from `list_issues`). -/
def searchStateJson (s : StateRef) : Json :=
  .obj [("id", .str s.id), ("name", .str s.name), ("color", .str s.color),
        ("type", .str s.type)]

/-- The raw project fields the monolithic `list_projects` formatter uses
(`src/index.ts` lines 1573-1586), each an opaque JSON value; `priority` is
`none` when the upstream field is undefined
(`project.priority !== undefined ? project.priority : null`). -/
structure RawProject where
  id : Json
  name : Json
  description : Json
  state : Json
  createdAt : Json
  updatedAt : Json
  completedAt : Json
  canceledAt : Json
  startDate : Json
  targetDate : Json
  health : Json
  priority : Option Json

/-- The monolithic `list_projects` per-node formatter
(`src/index.ts` lines 1573-1609): absent `creator` and absent `lead` map to
explicit `null` (lines 1587-1600); the teams connection becomes a list. -/
def formatProjectListItem (p : RawProject) (creator lead : Option UserRef)
    (teams : List TeamRef) : List (String × Json) :=
  [("id", p.id),
   ("name", p.name),
   ("description", p.description),
   ("state", p.state),
   ("createdAt", p.createdAt),
   ("updatedAt", p.updatedAt),
   ("completedAt", jsOr p.completedAt .null),
   ("canceledAt", jsOr p.canceledAt .null),
   ("startDate", jsOr p.startDate .null),
   ("targetDate", jsOr p.targetDate .null),
   ("health", jsOr p.health .null),
   ("priority", match p.priority with
     | some v => v
     | none => .null),
   ("creator", optRel userJson creator),
   ("lead", optRel userJson lead),
   ("teams", .arr (teams.map teamJson))]

/-- The raw issue fields the monolithic `search_issues` formatter copies
verbatim (`src/index.ts` lines 1674-1714). -/
structure RawSearchIssue where
  id : Json
  title : Json
  description : Json
  identifier : Json
  priority : Json
  url : Json
  number : Json
  createdAt : Json
  updatedAt : Json

/-- The monolithic `search_issues` per-node formatter
(`src/index.ts` lines 1674-1714): absent state, assignee, team and project
map to explicit `null`. -/
def formatSearchIssueItem (r : RawSearchIssue) (state : Option StateRef)
    (assignee : Option UserFullRef) (team : Option TeamRef)
    (project : Option IdNameRef) : List (String × Json) :=
  [("id", r.id),
   ("title", r.title),
   ("description", r.description),
   ("identifier", r.identifier),
   ("priority", r.priority),
   ("url", r.url),
   ("number", r.number),
   ("state", optRel searchStateJson state),
   ("assignee", optRel userFullJson assignee),
   ("team", optRel teamJson team),
   ("project", optRel idNameJson project),
   ("createdAt", r.createdAt),
   ("updatedAt", r.updatedAt)]

/-- The monolithic `list_cycles` per-node formatter
(`src/index.ts` lines 2487-2502): an absent team maps to explicit `null`. -/
def formatCycleListItem (id name description number startDate endDate
    completedAt : Json) (team : Option TeamRef) : List (String × Json) :=
  [("id", id),
   ("name", name),
   ("description", description),
   ("number", number),
   ("startDate", startDate),
   ("endDate", endDate),
   ("completedAt", completedAt),
   ("team", optRel teamJson team)]

/-- The monolithic `list_roadmaps` base roadmap object
(`src/index.ts` lines 1987-2002): an absent creator maps to explicit
`null`. -/
def formatRoadmapItem (id name description createdAt updatedAt archivedAt
    color url : Json) (creator : Option IdNameRef) : List (String × Json) :=
  [("id", id),
   ("name", name),
   ("description", description),
   ("createdAt", createdAt),
   ("updatedAt", updatedAt),
   ("archivedAt", archivedAt),
   ("color", color),
   ("url", url),
   ("creator", optRel idNameJson creator)]

/- ### Tool responses and handler runs -/

/-- The single text content of a tool response: either a JSON document
(`JSON.stringify(...)`) or a plain error string. -/
inductive Payload where
  | jsonOf : Json → Payload
  | plain : String → Payload

/-- An MCP tool response: one text content plus the optional error flag. -/
structure ToolResponse where
  payload : Payload
  isError : Bool

/-- The monolithic server's outer catch (`src/index.ts` lines 3902-3913):
every exception escaping a tool case is turned into a NON-protocol-fault
response with `isError: true` and the uniform text
`"Linear API error: " ++ message`. -/
def outerCatch (msg : String) : ToolResponse :=
  ⟨.plain ("Linear API error: " ++ msg), true⟩

/-- An upstream (Linear API) call issued by a handler. -/
inductive UpstreamCall where
  | issueById : String → UpstreamCall
  | labelById : String → UpstreamCall
  | labelUpdate : List (String × String) → UpstreamCall
  | relation : String → UpstreamCall
deriving DecidableEq, Repr

/-- A fetched page.  `hasNextPage` is the upstream cursor metadata: true iff
more entities existed beyond the requested page. -/
structure PageResult (α : Type) where
  nodes : List α
  hasNextPage : Bool

/-- The number of nodes a `first` of `q` requests. -/
def pageCount (q : ℚ) : ℕ := q.floor.toNat

/-- Model of the upstream paginated fetch: the first `q` entities of the
upstream collection, with `hasNextPage` set iff more existed. -/
def fetchPage (upstream : List α) (q : ℚ) : PageResult α :=
  ⟨upstream.take (pageCount q), decide (pageCount q < upstream.length)⟩

/-- The monolithic `list_issues` case invoked WITHOUT filter arguments
(`src/index.ts` lines 1106-1404): the constructed filter is empty,
`queryOptions.first = args.first ?? 50` (line 1240), one page is fetched, each
node is formatted, and the response text is `JSON.stringify(formattedIssues)`
(lines 1396-1403) — the page's cursor metadata is not part of the response. -/
def listIssuesRunIndex (upstream : List IssueBundle) (first : Option ℚ) :
    ToolResponse :=
  let page := fetchPage upstream ((indexListIssuesFirst first).getD 50)
  ⟨.jsonOf (.arr (page.nodes.map fun b => .obj (formatIssueListItem b))), false⟩

/-- The monolithic `get_issue` case composed with the outer catch
(`src/index.ts` lines 1752-1963 and 3902-3913).  The upstream by-id fetch may
fail (`.error`), return no issue (`.ok none`) or return the issue with its
relations (`.ok (some bundle)`).  Returns the upstream calls issued together
with the response.  On `.ok none` the handler throws
`Issue with ID <id> not found` (line 1762) BEFORE any relation fetch, and the
outer catch converts it into an `isError` response. -/
def getIssueRunIndex (env : String → Except String (Option IssueDetailsBundle))
    (issueId : String) : List UpstreamCall × ToolResponse :=
  match env issueId with
  | .error e => ([.issueById issueId], outerCatch e)
  | .ok none =>
      ([.issueById issueId],
       outerCatch ("Issue with ID " ++ issueId ++ " not found"))
  | .ok (some b) =>
      ([.issueById issueId,
        .relation "state", .relation "assignee", .relation "project",
        .relation "team", .relation "creator", .relation "cycle",
        .relation "parent", .relation "labels", .relation "subscribers",
        .relation "children", .relation "relations", .relation "comments",
        .relation "attachments"],
       ⟨.jsonOf (.obj (issueDetails b)), false⟩)

/-- Entry for a relation assigned into an object literal and then serialized
by `JSON.stringify`: a key whose value is `undefined` is DROPPED from the
serialized object. -/
def optEntry (k : String) : Option Json → List (String × Json)
  | some j => [(k, j)]
  | none => []

/-- One fetched issue for the modular `handleGetIssue`
(`src/utils.ts` lines 562-591): the raw issue's own enumerable fields
(the spread `...issue`), the attachment/label/comment/children nodes, and the
awaited relations, each of which may be `undefined` (`none`). -/
structure ModularIssueBundle where
  raw : List (String × Json)
  attachments : List Json
  labels : List Json
  state : Option Json
  assignee : Option Json
  team : Option Json
  project : Option Json
  comments : List Json
  children : List Json
  parent : Option Json

/-- The modular `handleGetIssue` projection `issueData`
(`src/utils.ts` lines 594-605) as serialized by `JSON.stringify`: the raw
issue is spread, then `attachments`/`labels`/`comments`/`children` are
arrays, and the awaited relations `state`/`assignee`/`team`/`project`/
`parent` keep their raw objects — when one is `undefined`, its key is
OMITTED from the serialized output (unlike the monolithic formatters'
explicit `null`). -/
def issueDataModular (b : ModularIssueBundle) : List (String × Json) :=
  b.raw ++
  [("attachments", .arr b.attachments), ("labels", .arr b.labels)] ++
  optEntry "state" b.state ++
  optEntry "assignee" b.assignee ++
  optEntry "team" b.team ++
  optEntry "project" b.project ++
  [("comments", .arr b.comments), ("children", .arr b.children)] ++
  optEntry "parent" b.parent

/-- The modular `handleGetIssue` (`src/utils.ts` lines 549-621).  Every
failure — including the `Issue not found: <id>` McpError thrown at line 556
— is caught at line 615 and re-thrown as an `McpError` whose message is
`"Failed to get issue: " ++ <original message>`; the modular server has no
outer catch, so the error propagates as a protocol error rather than an
`isError` response.  On success the response text is
`JSON.stringify(issueData)`. -/
def handleGetIssueModular
    (env : String → Except String (Option ModularIssueBundle))
    (issueId : String) : Except String ToolResponse :=
  match env issueId with
  | .error e => .error ("Failed to get issue: " ++ e)
  | .ok none =>
      .error ("Failed to get issue: " ++ ("Issue not found: " ++ issueId))
  | .ok (some b) => .ok ⟨.jsonOf (.obj (issueDataModular b)), false⟩

/- ### `update_label` -/

/-- `update_label` arguments after validation
(`updateLabelSchema`: labelId required, name/color/description optional). -/
structure UpdateLabelArgs where
  labelId : String
  name : Option String := none
  color : Option String := none
  description : Option String := none

/-- JavaScript truthiness of an optional string argument
(`if (args.name) ...`): false for `undefined` and for `""`. -/
def strTruthy : Option String → Option String
  | some s => if s = "" then none else some s
  | none => none

/-- The partial update object constructed by `update_label`
(`src/utils.ts` lines 874-877 and, identically, `src/index.ts` lines
2440-2443): a key is added only when the corresponding argument is truthy. -/
def buildLabelUpdate (args : UpdateLabelArgs) : List (String × String) :=
  (match strTruthy args.name with
   | some n => [("name", n)]
   | none => []) ++
  (match strTruthy args.color with
   | some c => [("color", c)]
   | none => []) ++
  (match strTruthy args.description with
   | some d => [("description", d)]
   | none => [])

/-- The modular `handleUpdateLabel` (`src/utils.ts` lines 862-895): fetch
the label by id; if absent throw `Label not found: <id>` (re-wrapped by the
catch into `Failed to update label: ...`); otherwise issue EXACTLY ONE
`label.update(updateData)` call.  `findLabel` models the by-id fetch and
`updResult` the upstream's response to the update call. -/
def updateLabelRun (findLabel : String → Except String Bool)
    (updResult : List (String × String) → Json) (args : UpdateLabelArgs) :
    List UpstreamCall × Except String ToolResponse :=
  match findLabel args.labelId with
  | .error e => ([.labelById args.labelId], .error ("Failed to update label: " ++ e))
  | .ok false =>
      ([.labelById args.labelId],
       .error ("Failed to update label: " ++ ("Label not found: " ++ args.labelId)))
  | .ok true =>
      ([.labelById args.labelId, .labelUpdate (buildLabelUpdate args)],
       .ok ⟨.jsonOf (updResult (buildLabelUpdate args)), false⟩)

/-- Counts the update calls in an upstream trace. -/
def countLabelUpdates (calls : List UpstreamCall) : ℕ :=
  calls.countP fun c =>
    match c with
    | .labelUpdate _ => true
    | _ => false

/-- Does the validated `update_label` input provide the field `k`?  (The
spec's "fields present in the validated input".) -/
def updateLabelFieldProvided (args : UpdateLabelArgs) (k : String) : Prop :=
  (k = "name" ∧ args.name ≠ none) ∨
  (k = "color" ∧ args.color ≠ none) ∨
  (k = "description" ∧ args.description ≠ none)

/- ### Concrete fixtures used by counterexamples and witnesses -/

/-- A raw issue whose passthrough fields are all `null`. -/
def emptyRawIssue : RawIssue :=
  ⟨.null, .null, .null, .null, .null, .null, .null, .null, .null, .null,
   .null, .null, .null, .null, .null, .null, .null, .null, .null, .null,
   .null, .null, .null, .null, .null, .null, .null, .null, .null, .null,
   .null, .null, .null, .null, .null⟩

/-- A `list_issues` node with every optional relation absent. -/
def noRelBundle : IssueBundle :=
  ⟨emptyRawIssue, none, none, none, none, none, none, none, []⟩

/-- A raw `get_issue` entity whose passthrough fields are all `null`. -/
def emptyRawDetails : RawIssueDetails :=
  ⟨.null, .null, .null, .null, .null, .null, .null, .null, .null, .null,
   .null, .null, .null, .null, .null, .null, .null, .null, .null, .null,
   .null⟩

/-- A `get_issue` entity with every optional relation absent. -/
def noStateBundle : IssueDetailsBundle :=
  ⟨emptyRawDetails, none, none, none, none, none, none, none, [], [], []⟩

/-- A raw project whose passthrough fields are all `null` and whose
`priority` is undefined. -/
def emptyRawProject : RawProject :=
  ⟨.null, .null, .null, .null, .null, .null, .null, .null, .null, .null,
   .null, none⟩

/-- A modular `get_issue` bundle with empty raw fields and every awaited
relation `undefined`. -/
def noRelModularBundle : ModularIssueBundle :=
  ⟨[], [], [], none, none, none, none, [], [], none⟩

/-- An input for `createIssueSchema` violating two independent field-level
constraints: `title` is missing and `teamId` is a number. -/
def cexValidationInput : Json := .obj [("teamId", .num 7)]

/-- The rational 5/2 = 2.5, written as a kernel-reducible structure literal. -/
def halfFive : ℚ := { num := 5, den := 2, den_nz := by decide, reduced := by decide }

/-- The rational 9/2 = 4.5, written as a kernel-reducible structure literal. -/
def halfNine : ℚ := { num := 9, den := 2, den_nz := by decide, reduced := by decide }

/-- A valid `create_issue` input whose priority is the non-integer 5/2. -/
def priorityNonIntegerInput : Json :=
  .obj [("title", .str "t"), ("teamId", .str "TEAM-1"), ("priority", .num halfFive)]

/-- A valid `create_issue` input with priority `q`. -/
def createIssueInputWithPriority (q : ℚ) : Json :=
  .obj [("title", .str "t"), ("teamId", .str "TEAM-1"), ("priority", .num q)]

/-- A valid `update_issue` input with priority `q`. -/
def updateIssueInputWithPriority (q : ℚ) : Json :=
  .obj [("issueId", .str "iss-1"), ("priority", .num q)]

/-- A valid `list_issues` input with priority `q`. -/
def listIssuesInputWithPriority (q : ℚ) : Json :=
  .obj [("priority", .num q)]

/- ### General lemmas -/

theorem strData_append (a b : String) : (a ++ b).data = a.data ++ b.data := rfl

theorem listStartsWith_append_self (p t : List Char) :
    listStartsWith p (p ++ t) = true := by
  induction p with
  | nil => rfl
  | cons a as ih => simp [listStartsWith, ih]

theorem listHasSegment_append_left (p t : List Char) (a : List Char)
    (h : listHasSegment p t = true) : listHasSegment p (a ++ t) = true := by
  induction a with
  | nil => simpa using h
  | cons c cs ih => simp [listHasSegment, ih]

theorem listHasSegment_self_append (p t : List Char) :
    listHasSegment p (p ++ t) = true := by
  cases p with
  | nil => cases t <;> simp [listHasSegment, listStartsWith]
  | cons c cs =>
      simp only [List.cons_append, listHasSegment, Bool.or_eq_true]
      exact Or.inl (by simpa using listStartsWith_append_self (c :: cs) t)

theorem strStarts_append (p t : String) : strStarts (p ++ t) p = true := by
  unfold strStarts
  rw [strData_append]
  exact listStartsWith_append_self p.data t.data

theorem strContains_append_of_contains (a t p : String)
    (h : strContains t p = true) : strContains (a ++ t) p = true := by
  unfold strContains at h ⊢
  rw [strData_append]
  exact listHasSegment_append_left p.data t.data a.data h

theorem strContains_middle (a b c : String) : strContains (a ++ b ++ c) b = true := by
  unfold strContains
  rw [strData_append, strData_append, List.append_assoc]
  exact listHasSegment_append_left b.data (b.data ++ c.data) a.data
    (listHasSegment_self_append b.data c.data)

theorem strTruthy_ne_none {o : Option String} {x : String}
    (h : strTruthy o = some x) : o ≠ none := by
  cases o with
  | none => simp [strTruthy] at h
  | some s => simp

theorem lookup_append_of_notfound {α β : Type} [BEq α] (l1 l2 : List (α × β))
    (k : α) (h : l1.lookup k = none) : (l1 ++ l2).lookup k = l2.lookup k := by
  induction l1 with
  | nil => rfl
  | cons p l ih =>
      obtain ⟨a, b⟩ := p
      by_cases hk : (k == a) = true
      · simp [List.lookup, hk] at h
      · rw [Bool.not_eq_true] at hk
        simp only [List.cons_append, List.lookup, hk] at h ⊢
        exact ih h

/- ### Claim theorems -/

/-- C1 — the claim is what the code SHOULD do but does not: with
`READ_ONLY_MODE` set, every mutation tool name is omitted from the discovery
listing and from the `availableTools` capability map, yet the
`CallToolRequestSchema` dispatch switch (which never consults
`READ_ONLY_MODE`) still routes every one of them to its mutation handler
instead of rejecting it like an unregistered name.  This theorem evaluates
the dispatch at the failing inputs. -/
theorem readOnlyMode_write_tools_still_dispatched :
    (writeToolNames.all fun t => !isUnknownTool (callToolDispatch t)) = true ∧
    (writeToolNames.all fun t => !(listedTools true).contains t) = true ∧
    (writeToolNames.all fun t => !(availableToolNames true).contains t) = true ∧
    callToolDispatch "create_issue" = .handler "handleCreateIssue" ∧
    isUnknownTool (callToolDispatch "not_a_registered_tool") = true := by
  refine ⟨by decide, by decide, by decide, rfl, rfl⟩

/-- C5 counterexample: the monolithic server's `list_teams` case calls
`linearClient.teams()` with no arguments (`src/index.ts` line 1469), i.e. an
upstream page fetch with NO `first` bound; the v37 server does the same.  So
not every list-returning tool bounds its fetch. -/
theorem listTeams_unbounded_fetch :
    indexListTeamsFirst = none ∧ v37ListTeamsFirst = none := ⟨rfl, rfl⟩

/-- C5 amended: every list-returning tool EXCEPT the monolithic and v37
`list_teams` bounds its upstream fetch: the nine modular handlers and the
monolithic `list_issues`/`list_projects`/`search_issues`/`list_labels`/
`list_cycles`/`list_documents`/`list_users` substitute the default 50 when
`first` is omitted and always pass a bound; the monolithic `list_roadmaps`
defaults `first` to 50 unless a truthy `last` is given, in which case `last`
bounds the page instead. -/
theorem list_tools_bounded_except_listTeams :
    (handleListIssuesFirst none = some 50 ∧ handleListUsersFirst none = some 50 ∧
     handleListTeamsFirst none = some 50 ∧ handleListProjectsFirst none = some 50 ∧
     handleListRoadmapsFirst none = some 50 ∧ handleListLabelsFirst none = some 50 ∧
     handleListCyclesFirst none = some 50 ∧ handleListDocumentsFirst none = some 50 ∧
     handleSearchIssuesFirst none = some 50) ∧
    (∀ f : Option ℚ,
      (handleListIssuesFirst f).isSome = true ∧
      (handleListUsersFirst f).isSome = true ∧
      (handleListTeamsFirst f).isSome = true ∧
      (handleListProjectsFirst f).isSome = true ∧
      (handleListRoadmapsFirst f).isSome = true ∧
      (handleListLabelsFirst f).isSome = true ∧
      (handleListCyclesFirst f).isSome = true ∧
      (handleListDocumentsFirst f).isSome = true ∧
      (handleSearchIssuesFirst f).isSome = true) ∧
    (indexListIssuesFirst none = some 50 ∧ indexListProjectsFirst none = some 50 ∧
     indexSearchIssuesFirst none = some 50 ∧ indexListLabelsFirst none = some 50 ∧
     indexListCyclesFirst none = some 50 ∧ indexListDocumentsFirst none = some 50 ∧
     indexListUsersFirst none = some 50 ∧ indexListRoadmapsFirst none none = some 50) ∧
    (∀ f : Option ℚ,
      (indexListIssuesFirst f).isSome = true ∧
      (indexListProjectsFirst f).isSome = true ∧
      (indexSearchIssuesFirst f).isSome = true ∧
      (indexListLabelsFirst f).isSome = true ∧
      (indexListCyclesFirst f).isSome = true ∧
      (indexListDocumentsFirst f).isSome = true ∧
      (indexListUsersFirst f).isSome = true) ∧
    (∀ f l : Option ℚ, indexListRoadmapsFirst f l = none → l.isSome = true) ∧
    indexListTeamsFirst = none ∧ v37ListTeamsFirst = none := by
  refine ⟨by decide, ?_, by decide, ?_, ?_, rfl, rfl⟩
  · intro f
    cases f <;> simp [handleListIssuesFirst, handleListUsersFirst,
      handleListTeamsFirst, handleListProjectsFirst, handleListRoadmapsFirst,
      handleListLabelsFirst, handleListCyclesFirst, handleListDocumentsFirst,
      handleSearchIssuesFirst]
  · intro f
    cases f <;> simp [indexListIssuesFirst, indexListProjectsFirst,
      indexSearchIssuesFirst, indexListLabelsFirst, indexListCyclesFirst,
      indexListDocumentsFirst, indexListUsersFirst]
  · intro f l h
    cases f with
    | some x => simp [indexListRoadmapsFirst] at h
    | none =>
        cases l with
        | none => simp [indexListRoadmapsFirst] at h
        | some y => rfl

/-- Witness for the amended C5: at concrete inputs — an omitted `first`
yields the default bound 50, and the only way `list_roadmaps` receives no
`first` is when an explicit `last` was given. -/
theorem list_tools_bounded_except_listTeams_witness :
    handleListIssuesFirst none = some 50 ∧
    (Option.some (3 : ℚ)).isSome = true := by
  refine ⟨list_tools_bounded_except_listTeams.1.1, ?_⟩
  exact list_tools_bounded_except_listTeams.2.2.2.2.1 none (some 3) (by decide)

/-- C10 — the nine modular `ToolHandlers` list operations compute the page
size as `args?.first || 50`, so an explicit `first = 0` is coerced to the
default 50 exactly like an omitted `first` (a zero-item page cannot be
requested), while the monolithic `list_issues` uses `args?.first ?? 50` and
preserves the explicit 0. -/
theorem explicit_zero_first_becomes_50 :
    handleListIssuesFirst (some 0) = some 50 ∧
    handleListUsersFirst (some 0) = some 50 ∧
    handleListTeamsFirst (some 0) = some 50 ∧
    handleListProjectsFirst (some 0) = some 50 ∧
    handleListRoadmapsFirst (some 0) = some 50 ∧
    handleListLabelsFirst (some 0) = some 50 ∧
    handleListCyclesFirst (some 0) = some 50 ∧
    handleListDocumentsFirst (some 0) = some 50 ∧
    handleSearchIssuesFirst (some 0) = some 50 ∧
    handleListIssuesFirst (some 0) = handleListIssuesFirst none ∧
    indexListIssuesFirst (some 0) = some 0 := by
  decide

/-- C7 — `update_label` with exactly `labelId` and `color: "#FF0000"` issues
one by-id fetch and EXACTLY ONE upstream update call whose update object is
`{color: "#FF0000"}` (no `name`, no `description`); and in general the
constructed partial update object contains only keys whose field was present
in the validated input. -/
theorem updateLabel_partial_update
    (findLabel : String → Except String Bool)
    (updResult : List (String × String) → Json) (args : UpdateLabelArgs)
    (hn : args.name = none) (hd : args.description = none)
    (hc : args.color = some "#FF0000")
    (hfound : findLabel args.labelId = .ok true) :
    (updateLabelRun findLabel updResult args).1 =
      [.labelById args.labelId, .labelUpdate [("color", "#FF0000")]] ∧
    countLabelUpdates (updateLabelRun findLabel updResult args).1 = 1 ∧
    (∀ a2 : UpdateLabelArgs, ∀ k v, (k, v) ∈ buildLabelUpdate a2 →
      updateLabelFieldProvided a2 k) := by
  have hb : buildLabelUpdate args = [("color", "#FF0000")] := by
    simp [buildLabelUpdate, strTruthy, hn, hd, hc]
  refine ⟨?_, ?_, ?_⟩
  · simp [updateLabelRun, hfound, hb]
  · simp [updateLabelRun, hfound, hb, countLabelUpdates]
  · intro a2 k v hm
    unfold buildLabelUpdate at hm
    rcases List.mem_append.1 hm with hab | hdm
    · rcases List.mem_append.1 hab with hnm | hcm
      · left
        revert hnm
        cases hx : strTruthy a2.name with
        | none => intro hnm; simp at hnm
        | some n =>
            intro hnm
            simp at hnm
            exact ⟨hnm.1, strTruthy_ne_none hx⟩
      · right; left
        revert hcm
        cases hx : strTruthy a2.color with
        | none => intro hcm; simp at hcm
        | some n =>
            intro hcm
            simp at hcm
            exact ⟨hcm.1, strTruthy_ne_none hx⟩
    · right; right
      revert hdm
      cases hx : strTruthy a2.description with
      | none => intro hdm; simp at hdm
      | some n =>
          intro hdm
          simp at hdm
          exact ⟨hdm.1, strTruthy_ne_none hx⟩

/-- Witness for C7 at a concrete run: label found, args
`{labelId := "lbl-1", color := "#FF0000"}`. -/
theorem updateLabel_partial_update_witness :
    (updateLabelRun (fun _ => .ok true) (fun _ => Json.null)
        ⟨"lbl-1", none, some "#FF0000", none⟩).1 =
      [.labelById "lbl-1", .labelUpdate [("color", "#FF0000")]] :=
  (updateLabel_partial_update (fun _ => .ok true) (fun _ => Json.null)
    ⟨"lbl-1", none, some "#FF0000", none⟩ rfl rfl rfl rfl).1

/-- C9 counterexample: the priority schemas are `z.number().min(0).max(4)`
WITHOUT `.int()`, so the non-integer priority 5/2 = 2.5 passes validation
(under both `validateRequest` variants), contradicting "accepts ... if and
only if it is an integer in [0,4]". -/
theorem priority_accepts_noninteger :
    schemasValidateRequest createIssueSchemaZ priorityNonIntegerInput =
      .ok (.obj [("title", .str "t"), ("teamId", .str "TEAM-1"),
                 ("priority", .num halfFive)]) ∧
    utilsValidateRequest createIssueSchemaZ priorityNonIntegerInput =
      .ok (.obj [("title", .str "t"), ("teamId", .str "TEAM-1"),
                 ("priority", .num halfFive)]) ∧
    (∀ n : ℤ, (n : ℚ) ≠ halfFive) := by
  refine ⟨rfl, rfl, ?_⟩
  intro n h
  have hd := congrArg Rat.den h
  simp [halfFive, Rat.den_intCast] at hd

/-- C9 amended: for `create_issue`, `update_issue` and `list_issues`, a
provided numeric `priority` passes validation iff it lies in the closed
interval [0,4] — integrality is NOT enforced; any number outside the range is
rejected. -/
theorem priority_range_validation (q : ℚ) :
    (zodIssues createIssueSchemaZ (createIssueInputWithPriority q) = [] ↔
      0 ≤ q ∧ q ≤ 4) ∧
    (zodIssues updateIssueSchemaZ (updateIssueInputWithPriority q) = [] ↔
      0 ≤ q ∧ q ≤ 4) ∧
    (zodIssues listIssuesSchemaZ (listIssuesInputWithPriority q) = [] ↔
      0 ≤ q ∧ q ≤ 4) := by
  refine ⟨?_, ?_, ?_⟩ <;>
  · by_cases h0 : q < 0 <;> by_cases h4 : 4 < q <;>
      simp [zodIssues, createIssueSchemaZ, updateIssueSchemaZ, listIssuesSchemaZ,
        createIssueInputWithPriority, updateIssueInputWithPriority,
        listIssuesInputWithPriority, fieldIssues, priorityField, typeIssues,
        numIssues, h0, h4, List.lookup] <;>
      first
        | exact le_of_not_lt h0
        | exact le_of_not_lt h4
        | constructor <;> first
            | exact le_of_not_lt h0
            | exact le_of_not_lt h4

/-- Witness for the amended C9 at the concrete boundary priorities 4
(accepted) and 9/2 (rejected). -/
theorem priority_range_validation_witness :
    (zodIssues createIssueSchemaZ (createIssueInputWithPriority 4) = []) ∧
    ¬ (zodIssues createIssueSchemaZ (createIssueInputWithPriority halfNine) = []) := by
  constructor
  · exact (priority_range_validation 4).1.2 (by norm_num)
  · intro h
    have := (priority_range_validation halfNine).1.1 h
    exact absurd this.2 (by decide)

/-- C2 counterexample: the modular `validateRequest` (`src/utils.ts` 7-19)
joins only the issues' MESSAGES (`error.errors.map((e) => e.message)`), not
`<field path>: <reason>`: on an input violating two independent constraints
(missing `title`, numeric `teamId`) the single error enumerates both
violations but names neither field (the monolithic variant does). -/
theorem utilsValidateRequest_omits_field_paths :
    zodIssues createIssueSchemaZ cexValidationInput =
      [⟨["title"], "Required"⟩,
       ⟨["teamId"], "Expected string, received number"⟩] ∧
    utilsValidateRequest createIssueSchemaZ cexValidationInput =
      .error "Invalid arguments: Required, Expected string, received number" ∧
    strContains "Invalid arguments: Required, Expected string, received number"
      "title" = false ∧
    schemasValidateRequest createIssueSchemaZ cexValidationInput =
      .error
        "Validation error: title: Required, teamId: Expected string, received number" := by
  refine ⟨rfl, rfl, by decide, rfl⟩

/-- C2 amended: both `validateRequest` variants fail with a single error that
enumerates EVERY field-level violation (Zod collects all issues; no field's
issues are dropped), joined by ", ".  The monolithic `schemas.ts` variant
formats each violation as `<field path>: <reason>`; the modular
`src/utils.ts` variant emits only the reasons, without the field paths. -/
theorem validateRequest_enumerates_all_violations (s : ZodObject) (j : Json)
    (h : zodIssues s j ≠ []) :
    schemasValidateRequest s j =
      .error ("Validation error: " ++ String.intercalate ", "
        ((zodIssues s j).map fun i =>
          String.intercalate "." i.path ++ ": " ++ i.message)) ∧
    utilsValidateRequest s j =
      .error ("Invalid arguments: " ++ String.intercalate ", "
        ((zodIssues s j).map ZIssue.message)) ∧
    (∀ kvs, j = .obj kvs → ∀ f ∈ s.fields, ∀ i ∈ fieldIssues f kvs,
      i ∈ zodIssues s j) := by
  have hne : (zodIssues s j).isEmpty = false := by
    cases hz : zodIssues s j with
    | nil => exact absurd hz h
    | cons a l => rfl
  refine ⟨?_, ?_, ?_⟩
  · simp [schemasValidateRequest, hne, formatZodError]
  · simp [utilsValidateRequest, hne]
  · rintro kvs rfl f hf i hi
    simp only [zodIssues]
    exact List.mem_flatten.2 ⟨fieldIssues f kvs, List.mem_map_of_mem _ hf, hi⟩

/-- Witness for the amended C2 at the concrete two-violation input. -/
theorem validateRequest_enumerates_all_violations_witness :
    schemasValidateRequest createIssueSchemaZ cexValidationInput =
      .error
        "Validation error: title: Required, teamId: Expected string, received number" ∧
    (⟨["title"], "Required"⟩ : ZIssue) ∈
      zodIssues createIssueSchemaZ cexValidationInput := by
  have happ := validateRequest_enumerates_all_violations createIssueSchemaZ
    cexValidationInput (by decide)
  refine ⟨?_, ?_⟩
  · exact happ.1
  · exact happ.2.2 [("teamId", .num 7)] rfl
      ⟨"title", .str, false⟩ (by simp [createIssueSchemaZ]) _ (by decide)

theorem strContains_assoc3 (a b c t p : String) (h : strContains t p = true) :
    strContains (a ++ (b ++ (c ++ t))) p = true := by
  unfold strContains at h ⊢
  show listHasSegment p.data (a.data ++ (b.data ++ (c.data ++ t.data))) = true
  exact listHasSegment_append_left _ _ _
    (listHasSegment_append_left _ _ _ (listHasSegment_append_left _ _ _ h))

theorem strContains_at3 (a b p c : String) :
    strContains (a ++ (b ++ (p ++ c))) p = true := by
  unfold strContains
  show listHasSegment p.data (a.data ++ (b.data ++ (p.data ++ c.data))) = true
  exact listHasSegment_append_left _ _ _
    (listHasSegment_append_left _ _ _ (listHasSegment_self_append _ _))

/-- C3 counterexample: the monolithic `get_issue` projection maps an absent
state to the sentinel string `"Unknown"` in its `status` field
(`src/index.ts` line 1846), not to `null`; the v37 `list_issues` formatter
maps absent state/assignee to `"Unknown"`/`"Unassigned"`
(`src/unnamed/part_003` lines 371-372); and the modular `handleGetIssue`
(`src/utils.ts` lines 594-611) spreads `undefined` relations, so the
`state`/`assignee` keys are OMITTED from the serialized output (`lookup`
finds no entry at all). -/
theorem getIssue_status_sentinel_not_null :
    (issueDetails noStateBundle).lookup "status" = some (Json.str "Unknown") ∧
    Json.str "Unknown" ≠ Json.null ∧
    (formatIssueV37 .null .null none none .null .null).lookup "status" =
      some (Json.str "Unknown") ∧
    (formatIssueV37 .null .null none none .null .null).lookup "assignee" =
      some (Json.str "Unassigned") ∧
    (issueDataModular noRelModularBundle).lookup "state" = none ∧
    (issueDataModular noRelModularBundle).lookup "assignee" = none := by
  refine ⟨rfl, fun h => Json.noConfusion h, rfl, rfl, rfl, rfl⟩

/-- C3 amended: in every entity formatter of the monolithic server
(`list_issues`, `get_issue`, `list_projects` — including the LEAD relation —,
`search_issues`, `list_cycles`, `list_roadmaps`) and in the modular
`get_comment` formatter, an absent OBJECT-VALUED relation (assignee, creator,
state object, team, project, cycle, parent, user, issue, lead) maps to an
explicit JSON `null` — never an omitted key, never an empty object.  Two
code-forced exceptions: the `get_issue` `status` STRING field falls back to
the sentinel `"Unknown"` and the v37 `list_issues` formatter uses the
sentinels `"Unknown"`/`"Unassigned"`; and the modular `handleGetIssue`
spreads its awaited relations, so an absent relation's key is OMITTED from
the serialized output rather than set to `null` (the raw-lookup hypotheses
record that the spread issue carries no own property of that name). -/
theorem absent_relations_formatted (b : IssueBundle) (d : IssueDetailsBundle)
    (cid cbody ccr cup : Json) (usr : Option UserRef) (iss : Option IssueRef) :
    (b.state = none → (formatIssueListItem b).lookup "status" = some .null) ∧
    (b.assignee = none → (formatIssueListItem b).lookup "assignee" = some .null) ∧
    (b.creator = none → (formatIssueListItem b).lookup "creator" = some .null) ∧
    (b.project = none → (formatIssueListItem b).lookup "project" = some .null) ∧
    (b.team = none → (formatIssueListItem b).lookup "team" = some .null) ∧
    (b.cycle = none → (formatIssueListItem b).lookup "cycle" = some .null) ∧
    (b.parent = none → (formatIssueListItem b).lookup "parent" = some .null) ∧
    (d.assignee = none → (issueDetails d).lookup "assignee" = some .null) ∧
    (d.creator = none → (issueDetails d).lookup "creator" = some .null) ∧
    (d.team = none → (issueDetails d).lookup "team" = some .null) ∧
    (d.project = none → (issueDetails d).lookup "project" = some .null) ∧
    (d.parent = none → (issueDetails d).lookup "parent" = some .null) ∧
    (d.cycle = none → (issueDetails d).lookup "cycle" = some .null) ∧
    (d.state = none → (issueDetails d).lookup "status" = some (.str "Unknown")) ∧
    (usr = none →
      (formatCommentGet cid cbody ccr cup usr iss).lookup "user" = some .null) ∧
    (iss = none →
      (formatCommentGet cid cbody ccr cup usr iss).lookup "issue" = some .null) ∧
    (∀ (p : RawProject) (cr ld : Option UserRef) (tms : List TeamRef),
      cr = none →
        (formatProjectListItem p cr ld tms).lookup "creator" = some .null) ∧
    (∀ (p : RawProject) (cr ld : Option UserRef) (tms : List TeamRef),
      ld = none →
        (formatProjectListItem p cr ld tms).lookup "lead" = some .null) ∧
    (∀ (r : RawSearchIssue) (st : Option StateRef) (asg : Option UserFullRef)
       (tm : Option TeamRef) (pr : Option IdNameRef),
      st = none →
        (formatSearchIssueItem r st asg tm pr).lookup "state" = some .null) ∧
    (∀ (r : RawSearchIssue) (st : Option StateRef) (asg : Option UserFullRef)
       (tm : Option TeamRef) (pr : Option IdNameRef),
      asg = none →
        (formatSearchIssueItem r st asg tm pr).lookup "assignee" = some .null) ∧
    (∀ (r : RawSearchIssue) (st : Option StateRef) (asg : Option UserFullRef)
       (tm : Option TeamRef) (pr : Option IdNameRef),
      tm = none →
        (formatSearchIssueItem r st asg tm pr).lookup "team" = some .null) ∧
    (∀ (r : RawSearchIssue) (st : Option StateRef) (asg : Option UserFullRef)
       (tm : Option TeamRef) (pr : Option IdNameRef),
      pr = none →
        (formatSearchIssueItem r st asg tm pr).lookup "project" = some .null) ∧
    (∀ (i1 i2 i3 i4 i5 i6 i7 : Json) (tm : Option TeamRef),
      tm = none →
        (formatCycleListItem i1 i2 i3 i4 i5 i6 i7 tm).lookup "team" =
          some .null) ∧
    (∀ (j1 j2 j3 j4 j5 j6 j7 j8 : Json) (cr : Option IdNameRef),
      cr = none →
        (formatRoadmapItem j1 j2 j3 j4 j5 j6 j7 j8 cr).lookup "creator" =
          some .null) ∧
    (∀ mb : ModularIssueBundle, mb.raw.lookup "state" = none →
      mb.state = none → (issueDataModular mb).lookup "state" = none) ∧
    (∀ mb : ModularIssueBundle, mb.raw.lookup "assignee" = none →
      mb.assignee = none → (issueDataModular mb).lookup "assignee" = none) := by
  refine ⟨?_, ?_, ?_, ?_, ?_, ?_, ?_, ?_, ?_, ?_, ?_, ?_, ?_, ?_, ?_, ?_,
    ?_, ?_, ?_, ?_, ?_, ?_, ?_, ?_, ?_, ?_⟩
  · intro h; simp [formatIssueListItem, optRel, h, List.lookup]
  · intro h; simp [formatIssueListItem, optRel, h, List.lookup]
  · intro h; simp [formatIssueListItem, optRel, h, List.lookup]
  · intro h; simp [formatIssueListItem, optRel, h, List.lookup]
  · intro h; simp [formatIssueListItem, optRel, h, List.lookup]
  · intro h; simp [formatIssueListItem, optRel, h, List.lookup]
  · intro h; simp [formatIssueListItem, optRel, h, List.lookup]
  · intro h; simp [issueDetails, optRel, h, List.lookup]
  · intro h; simp [issueDetails, optRel, h, List.lookup]
  · intro h; simp [issueDetails, optRel, h, List.lookup]
  · intro h; simp [issueDetails, optRel, h, List.lookup]
  · intro h; simp [issueDetails, optRel, h, List.lookup]
  · intro h; simp [issueDetails, optRel, h, List.lookup]
  · intro h; simp [issueDetails, optRel, h, List.lookup]
  · intro h; simp [formatCommentGet, optRel, h, List.lookup]
  · intro h; simp [formatCommentGet, optRel, h, List.lookup]
  · intro p cr ld tms h
    simp [formatProjectListItem, optRel, h, List.lookup]
  · intro p cr ld tms h
    simp [formatProjectListItem, optRel, h, List.lookup]
  · intro r st asg tm pr h
    simp [formatSearchIssueItem, optRel, h, List.lookup]
  · intro r st asg tm pr h
    simp [formatSearchIssueItem, optRel, h, List.lookup]
  · intro r st asg tm pr h
    simp [formatSearchIssueItem, optRel, h, List.lookup]
  · intro r st asg tm pr h
    simp [formatSearchIssueItem, optRel, h, List.lookup]
  · intro i1 i2 i3 i4 i5 i6 i7 tm h
    simp [formatCycleListItem, optRel, h, List.lookup]
  · intro j1 j2 j3 j4 j5 j6 j7 j8 cr h
    simp [formatRoadmapItem, optRel, h, List.lookup]
  · rintro ⟨raw, att, lab, st, asg, tm, pj, cm, ch, par⟩ hraw hst
    dsimp only at hraw hst ⊢
    subst hst
    unfold issueDataModular
    dsimp only
    simp only [List.append_assoc]
    rw [lookup_append_of_notfound _ _ _ hraw]
    cases asg <;> cases tm <;> cases pj <;> cases par <;>
      simp [optEntry, List.lookup]
  · rintro ⟨raw, att, lab, st, asg, tm, pj, cm, ch, par⟩ hraw hasg
    dsimp only at hraw hasg ⊢
    subst hasg
    unfold issueDataModular
    dsimp only
    simp only [List.append_assoc]
    rw [lookup_append_of_notfound _ _ _ hraw]
    cases st <;> cases tm <;> cases pj <;> cases par <;>
      simp [optEntry, List.lookup]

/-- Witness for the amended C3 at concrete inputs with every relation
absent: the monolithic list formatter and `list_projects` lead give explicit
`null`, and the modular `get_issue` projection omits the `state` key. -/
theorem absent_relations_formatted_witness :
    (formatIssueListItem noRelBundle).lookup "assignee" = some Json.null ∧
    (formatProjectListItem emptyRawProject none none []).lookup "lead" =
      some Json.null ∧
    (issueDataModular noRelModularBundle).lookup "state" = none := by
  obtain ⟨-, hassignee, -, -, -, -, -, -, -, -, -, -, -, -, -, -, -, hlead, -,
      -, -, -, -, -, hmstate, -⟩ :=
    absent_relations_formatted noRelBundle noStateBundle .null .null .null .null
      none none
  exact ⟨hassignee rfl, hlead emptyRawProject none none [] rfl,
    hmstate noRelModularBundle rfl rfl⟩

/-- C4 counterexample: with 51 issues upstream and no arguments, the
monolithic `list_issues` fetches a page of 50 whose cursor metadata says
`hasNextPage = true`, yet the response text is just the JSON ARRAY of the 50
formatted issues (`src/index.ts` lines 1396-1403) — an array has no
`pagination` key, so `hasNextPage` is not part of the response. -/
theorem listIssues_response_lacks_pagination :
    (fetchPage (List.replicate 51 noRelBundle) 50).hasNextPage = true ∧
    (listIssuesRunIndex (List.replicate 51 noRelBundle) none).payload =
      .jsonOf (.arr (List.replicate 50 (.obj (formatIssueListItem noRelBundle)))) ∧
    (∀ kvs, Json.arr (List.replicate 50 (.obj (formatIssueListItem noRelBundle))) ≠
      Json.obj kvs) := by
  have hp : pageCount 50 = 50 := by decide
  refine ⟨?_, ?_, fun kvs h => Json.noConfusion h⟩
  · simp [fetchPage, hp]
  · simp [listIssuesRunIndex, fetchPage, hp, indexListIssuesFirst,
      List.take_replicate, List.map_replicate]

/-- C4 amended: `list_issues` with no filters and `first` omitted fetches at
most 50 issues upstream (the default 50 is substituted) and returns at most
50 formatted issues; but the response contains ONLY the formatted issue
array — no pagination metadata and no `hasNextPage` (in this codebase it is
`search_issues`, not `list_issues`, that returns pagination metadata). -/
theorem listIssues_default_bound_no_pagination (upstream : List IssueBundle) :
    ∃ items : List Json,
      listIssuesRunIndex upstream none = ⟨.jsonOf (.arr items), false⟩ ∧
      items.length ≤ 50 ∧
      items.length = min 50 upstream.length ∧
      (∀ kvs, Json.arr items ≠ Json.obj kvs) ∧
      indexListIssuesFirst none = some 50 := by
  have hp : pageCount 50 = 50 := by decide
  have hlen : ((fetchPage upstream 50).nodes.map
      fun b => Json.obj (formatIssueListItem b)).length = min 50 upstream.length := by
    simp [fetchPage, hp]
  refine ⟨(fetchPage upstream 50).nodes.map fun b => .obj (formatIssueListItem b),
    rfl, ?_, hlen, fun kvs h => Json.noConfusion h, rfl⟩
  rw [hlen]
  exact Nat.min_le_left _ _

/-- C6 — the monolithic `get_issue` on an id whose by-id fetch returns no
issue: the not-found error is thrown before any relation fetch (the upstream
trace is exactly the single by-id call), the outer catch converts it into a
response with `isError = true`, and the text contains both `"not found"` and
the requested id. -/
theorem getIssue_not_found_response
    (env : String → Except String (Option IssueDetailsBundle)) (issueId : String)
    (h : env issueId = .ok none) :
    (getIssueRunIndex env issueId).2.isError = true ∧
    (getIssueRunIndex env issueId).2.payload =
      .plain ("Linear API error: " ++ ("Issue with ID " ++ issueId ++ " not found")) ∧
    strContains ("Linear API error: " ++ ("Issue with ID " ++ issueId ++ " not found"))
      "not found" = true ∧
    strContains ("Linear API error: " ++ ("Issue with ID " ++ issueId ++ " not found"))
      issueId = true ∧
    (getIssueRunIndex env issueId).1 = [.issueById issueId] := by
  have hr : getIssueRunIndex env issueId =
      ([.issueById issueId],
       outerCatch ("Issue with ID " ++ issueId ++ " not found")) := by
    simp [getIssueRunIndex, h]
  refine ⟨by rw [hr]; rfl, by rw [hr]; rfl, ?_, ?_, by rw [hr]⟩
  · exact strContains_assoc3 "Linear API error: " "Issue with ID " issueId
      " not found" "not found" (by decide)
  · exact strContains_at3 "Linear API error: " "Issue with ID " issueId
      " not found"

/-- Witness for C6 at the concrete id `"LIN-404"` with an upstream that
returns no issue. -/
theorem getIssue_not_found_response_witness :
    (getIssueRunIndex (fun _ => .ok none) "LIN-404").2.isError = true ∧
    strContains
      ("Linear API error: " ++ ("Issue with ID " ++ "LIN-404" ++ " not found"))
      "LIN-404" = true :=
  ⟨(getIssue_not_found_response (fun _ => .ok none) "LIN-404" rfl).1,
   (getIssue_not_found_response (fun _ => .ok none) "LIN-404" rfl).2.2.2.1⟩

/-- C8 counterexample: in the monolithic server a `get_issue` failure's final
text is `"Linear API error: Issue with ID LIN-404 not found"` (the case has
no inner catch; the outer catch applies its uniform prefix), which does NOT
begin with the per-operation prefix `"Failed to get issue: "` the claim
requires. -/
theorem getIssue_failure_prefix_uniform :
    (getIssueRunIndex (fun _ => .ok none) "LIN-404").2.payload =
      .plain "Linear API error: Issue with ID LIN-404 not found" ∧
    strStarts "Linear API error: Issue with ID LIN-404 not found"
      "Failed to get issue: " = false ∧
    (getIssueRunIndex (fun _ => .ok none) "LIN-404").2.isError = true := by
  refine ⟨rfl, by decide, rfl⟩

/-- C8 amended: every failure of the monolithic server yields text beginning
with the uniform stable prefix `"Linear API error: "` (which does not
identify the failing operation); the per-operation `"Failed to <op>: "`
prefixes appear in the modular `ToolHandlers` (e.g. `handleGetIssue`) and in
monolithic cases with inner catches (e.g. `update_label`), but monolithic
`get_issue` failures do not begin with `"Failed to get issue: "`. -/
theorem failure_text_prefixes :
    (∀ e : String,
      (outerCatch e).payload = .plain ("Linear API error: " ++ e) ∧
      (outerCatch e).isError = true ∧
      strStarts ("Linear API error: " ++ e) "Linear API error: " = true) ∧
    (∀ (env : String → Except String (Option ModularIssueBundle)) (issueId e : String),
      env issueId = .error e →
        handleGetIssueModular env issueId = .error ("Failed to get issue: " ++ e) ∧
        strStarts ("Failed to get issue: " ++ e) "Failed to get issue: " = true) ∧
    (∀ (env : String → Except String (Option ModularIssueBundle)) (issueId : String),
      env issueId = .ok none →
        handleGetIssueModular env issueId =
          .error ("Failed to get issue: " ++ ("Issue not found: " ++ issueId))) ∧
    (∀ (findLabel : String → Except String Bool)
       (updResult : List (String × String) → Json) (args : UpdateLabelArgs),
      findLabel args.labelId = .ok false →
        (updateLabelRun findLabel updResult args).2 =
          .error ("Failed to update label: " ++
            ("Label not found: " ++ args.labelId))) ∧
    strStarts "Linear API error: Issue with ID LIN-404 not found"
      "Failed to get issue: " = false := by
  refine ⟨?_, ?_, ?_, ?_, by decide⟩
  · intro e; exact ⟨rfl, rfl, strStarts_append _ _⟩
  · intro env issueId e h
    refine ⟨?_, strStarts_append _ _⟩
    simp [handleGetIssueModular, h]
  · intro env issueId h
    simp [handleGetIssueModular, h]
  · intro findLabel updResult args h
    simp [updateLabelRun, h]

/-- Witness for the amended C8 at concrete failing runs of the modular
`handleGetIssue` and `handleUpdateLabel`. -/
theorem failure_text_prefixes_witness :
    handleGetIssueModular (fun _ => .ok none) "LBL-9" =
      .error "Failed to get issue: Issue not found: LBL-9" ∧
    (updateLabelRun (fun _ => .ok false) (fun _ => Json.null)
        ⟨"L1", none, none, none⟩).2 =
      .error "Failed to update label: Label not found: L1" :=
  ⟨failure_text_prefixes.2.2.1 (fun _ => .ok none) "LBL-9" rfl,
   failure_text_prefixes.2.2.2.1 (fun _ => .ok false) (fun _ => Json.null)
     ⟨"L1", none, none, none⟩ rfl⟩
